import Mathlib

/-!
Verification development for the LichessCLI repository.

The Python sources (`LichessAPI/LichessAPI.py`, `main.py`) are shallowly
embedded below: the response envelope `GenericResponse`, the API client
`LichessApi` with its mutable header dictionary threaded as explicit state,
the presentation helpers of `Prompt`, and the command dispatcher / REPL of
`LichessCli` as a step function over an explicit input-event list.
Python strings are Lean `String`s, Python dicts are insertion-ordered
association lists, machine-independent integers are `Nat`/`Int`, and
fallible attribute / key accesses return `Except`.
-/

set_option maxRecDepth 20000

/-- JSON values, the shape of parsed response payloads and of the user-info
dictionaries consumed by the presentation layer.  Numbers are modelled as
`Nat` (the payload fields the program reads — epoch milliseconds, ratings —
are non-negative integers). -/
inductive Json where
  | null
  | bool (b : Bool)
  | num (n : Nat)
  | str (s : String)
  | arr (xs : List Json)
  | obj (kvs : List (String × Json))

/-- Association-list lookup, modelling Python `dict` access by key
(first binding wins; Python dicts are keyed uniquely, insertion ordered). -/
def dictGet (k : String) : List (String × String) → Option String
  | [] => none
  | kv :: t => if kv.1 = k then some kv.2 else dictGet k t

/-- Python `dict.update` with a single key: replace the value in place if the
key is present (keeping its position), otherwise append the new binding. -/
def dictUpdate (d : List (String × String)) (k v : String) : List (String × String) :=
  if d.any (fun kv => kv.1 = k) then
    d.map (fun kv => if kv.1 = k then (k, v) else kv)
  else
    d ++ [(k, v)]

/-- Lookup of a key in a JSON object (Python `d[k]` / `d.get(k)` on the
parsed payload); `none` when the value is not an object or the key is
missing. -/
def Json.lookupKey (j : Json) (k : String) : Option Json :=
  match j with
  | .obj kvs =>
    (kvs.find? (fun kv => kv.1 = k)).map Prod.snd
  | _ => none

/-- Python `d.get(k, default)` when the program expects a number
(`createdAt`, `seenAt`).  On a missing key the default is returned, as in
the source; payloads are assumed well-typed at these keys. -/
def jGetNat (j : Json) (k : String) (d : Nat) : Nat :=
  match j.lookupKey k with
  | some (.num n) => n
  | _ => d

/-- Python `d.get(k, default)` for a string field (`username`). -/
def jGetStr (j : Json) (k : String) (d : String) : String :=
  match j.lookupKey k with
  | some (.str s) => s
  | _ => d

/-- Python `d.get(k, default)` for a boolean field (`disabled`). -/
def jGetBool (j : Json) (k : String) (d : Bool) : Bool :=
  match j.lookupKey k with
  | some (.bool b) => b
  | _ => d

/-- Python `d.get(k, {})` for the `perfs` sub-mapping: the list of
(category, info) pairs in payload order. -/
def jGetObj (j : Json) (k : String) : List (String × Json) :=
  match j.lookupKey k with
  | some (.obj kvs) => kvs
  | _ => []

/-- Python `str(v)` as used when a JSON value is interpolated into printed
output (`main.py` prints `d['username']` and rating values directly).
Container reprs are not needed by the program's consumers and are not
modelled in detail. -/
def jsonDisplay : Json → String
  | .str s => s
  | .num n => toString n
  | .bool b => if b then "True" else "False"
  | .null => "None"
  | _ => ""

/-- Splitting a character list at every occurrence of `sep`, keeping empty
segments — the semantics of Python `s.split(' ')` with an explicit
single-character separator (`"".split(' ') == ['']`,
`"a  b".split(' ') == ['a','','b']`). -/
def splitChar (sep : Char) : List Char → List (List Char)
  | [] => [[]]
  | c :: cs =>
    let r := splitChar sep cs
    if c = sep then [] :: r else (c :: r.headI) :: r.tail

/-- Python `s.split(' ')` (used by `LichessCli.__command_handler`). -/
def pySplitSpace (s : String) : List String :=
  (splitChar ' ' s.data).map (fun l => String.mk l)

/-- Python `sep.join(xs)` (used by `get_users_by_id`). -/
def pyJoin (sep : String) : List String → String
  | [] => ""
  | [x] => x
  | x :: xs => x ++ sep ++ pyJoin sep xs

/-- Worker for `pyReplace` on character lists, for a non-empty pattern:
replace every (leftmost, non-overlapping) occurrence of `pat` by `rep`.
The fuel argument (instantiated with the input length, an upper bound on
the number of steps, each of which consumes at least one character) makes
the recursion structural. -/
def pyReplaceAux (pat rep : List Char) : Nat → List Char → List Char
  | _, [] => []
  | 0, s => s
  | fuel + 1, c :: cs =>
    if pat.isPrefixOf (c :: cs) then
      rep ++ pyReplaceAux pat rep fuel (cs.drop (pat.length - 1))
    else
      c :: pyReplaceAux pat rep fuel cs

/-- Python `s.replace(pat, rep)`: every occurrence of `pat` in `s` replaced
by `rep`; for the empty pattern Python inserts `rep` before every character
and at the end. Used by `__command_handler` (stripping the command prefix)
and by `format_help` (substituting the `[COMMAND_PREFIX]` placeholder). -/
def pyReplace (s pat rep : String) : String :=
  if pat.data = [] then
    String.mk (s.data.foldr (fun c acc => rep.data ++ c :: acc) rep.data)
  else
    String.mk (pyReplaceAux pat.data rep.data s.data.length s.data)

/-! ### The response envelope (`GenericResponse`, LichessAPI.py lines 8-38) -/

/-- The fields of a `requests` HTTP response that `GenericResponse.__init__`
reads: status code, body text, reason phrase, and elapsed microseconds. -/
structure HttpResponse where
  status_code : Nat
  text : String
  reason : String
  elapsed : Nat

/-- The envelope built by `GenericResponse.__init__`.  `data = none` and
`error_message = none` mean the Python attribute was never assigned (absent,
so that reading it raises `AttributeError`); `error_message = some none`
means the attribute was assigned the Python value `None`. -/
structure GenericResponse where
  status_code : Nat
  time_elapsed : Nat
  error : Bool
  data : Option Json
  error_message : Option (Option String)

/-- Model of `GenericResponse.__init__` (LichessAPI.py lines 23-38), parameterised by
the external JSON decoder `jsonLoads` (Python `json.loads`, returning `none`
exactly when the decoder raises `JSONDecodeError`).  `os.linesep` is the
platform newline, `"\n"`. -/
def GenericResponse.ofResponse (jsonLoads : String → Option Json) (r : HttpResponse) :
    GenericResponse :=
  if 200 ≤ r.status_code ∧ r.status_code ≤ 299 then
    if r.text ≠ "" then
      match jsonLoads r.text with
      | some v =>
        { status_code := r.status_code, time_elapsed := r.elapsed,
          error := false, data := some v, error_message := none }
      | none =>
        { status_code := r.status_code, time_elapsed := r.elapsed,
          error := false, data := none,
          error_message := some (some ("Unable to decode JSON: \n" ++ r.text)) }
    else
      { status_code := r.status_code, time_elapsed := r.elapsed,
        error := false, data := none, error_message := none }
  else if r.status_code = 400 then
    { status_code := r.status_code, time_elapsed := r.elapsed,
      error := true, data := none,
      error_message := some (if r.text ≠ "" then some r.text else none) }
  else
    { status_code := r.status_code, time_elapsed := r.elapsed,
      error := true, data := none, error_message := some (some r.reason) }

/-! ### The API client (`LichessApi`, LichessAPI.py lines 41-137)

The client's mutable instance attributes are threaded as explicit state.
`__send_request` binds `headers = self.__headers` — an alias of the stored
dictionary, not a copy — so updates made for one call persist in the
instance; the embedding reproduces this by returning the updated dictionary
as the new stored state. -/

/-- The request body: either a raw string (`get_users_by_id`) or a
form-encoded key/value mapping (`send_message`). -/
inductive ReqData where
  | str (s : String)
  | form (kvs : List (String × String))
deriving DecidableEq

/-- One HTTP request as handed to `self._session.request(...)`. -/
structure SentRequest where
  url : String
  method : String
  headers : List (String × String)
  data : Option ReqData
deriving DecidableEq

/-- The client instance state (`LichessApi.__init__`, lines 50-55). -/
structure LichessApi where
  token : String
  baseurl : String
  headers : List (String × String)
deriving DecidableEq

/-- Model of `LichessApi.__init__(token, baseurl)`. -/
def LichessApi.init (token baseurl : String) : LichessApi :=
  { token := token, baseurl := baseurl,
    headers := [("Authorization", "Bearer " ++ token),
                ("Accept", "application/json")] }

/-- Model of `LichessApi.__send_request` (lines 58-85): merge the caller's additional
headers into the (aliased) stored header dictionary, skipping any
`Authorization` key, then issue the request.  Returns the request actually
sent together with the client state after the call (whose stored headers
are the mutated dictionary). -/
def LichessApi.send_request (st : LichessApi) (url method : String)
    (data : Option ReqData) (addl : List (String × String)) :
    SentRequest × LichessApi :=
  let headers := addl.foldl
    (fun h kv => if kv.1 ≠ "Authorization" then dictUpdate h kv.1 kv.2 else h)
    st.headers
  ({ url := url, method := method, headers := headers, data := data },
   { st with headers := headers })

/-- Model of `LichessApi.get_user_info` (lines 87-93). -/
def LichessApi.get_user_info (st : LichessApi) (username : String) :
    SentRequest × LichessApi :=
  st.send_request (st.baseurl ++ ("api/user/" ++ username)) "get" none []

/-- Model of `LichessApi.get_users_by_id` (lines 95-107). -/
def LichessApi.get_users_by_id (st : LichessApi) (userlist : List String) :
    SentRequest × LichessApi :=
  st.send_request (st.baseurl ++ "api/users") "post"
    (some (.str (pyJoin "," userlist))) [("Content-Type", "text-plain")]

/-- Model of `LichessApi.get_my_profile` (lines 109-116). -/
def LichessApi.get_my_profile (st : LichessApi) : SentRequest × LichessApi :=
  st.send_request (st.baseurl ++ "api/account") "get" none []

/-- Model of `LichessApi.send_message` (lines 119-131); the endpoint string in the
source is `f'/inbox/{username}'`, with a leading slash. -/
def LichessApi.send_message (st : LichessApi) (username message : String) :
    SentRequest × LichessApi :=
  st.send_request (st.baseurl ++ ("/inbox/" ++ username)) "post"
    (some (.form [("text", message)]))
    [("Content-Type", "application/x-www-form-urlencoded")]

/-- One domain-level API call, as issued by the CLI handlers. -/
inductive ApiCall where
  | getUserInfo (u : String)
  | getUsersById (us : List String)
  | getMyProfile
  | sendMessage (u m : String)
deriving DecidableEq

/-- One operation against the client: a domain call, or a direct
`__send_request` with arbitrary caller-supplied additional headers. -/
inductive ApiOp where
  | call (c : ApiCall)
  | raw (url method : String) (data : Option ReqData)
      (addl : List (String × String))

/-- Run one operation against the client state. -/
def runOp (st : LichessApi) : ApiOp → SentRequest × LichessApi
  | .call (.getUserInfo u) => st.get_user_info u
  | .call (.getUsersById us) => st.get_users_by_id us
  | .call .getMyProfile => st.get_my_profile
  | .call (.sendMessage u m) => st.send_message u m
  | .raw url method data addl => st.send_request url method data addl

/-- Run a sequence of operations, collecting every request actually sent. -/
def runOps (st : LichessApi) : List ApiOp → List SentRequest
  | [] => []
  | op :: ops =>
    let r := runOp st op
    r.1 :: runOps r.2 ops

/-! ### The presentation layer (`Prompt`, main.py lines 16-121) -/

/-- The colorama foreground codes of `Style` (main.py lines 16-20):
INFORMATION is the empty string, SUCCESS green, WARNING yellow, ERROR red. -/
inductive Style where
  | INFORMATION
  | SUCCESS
  | WARNING
  | ERROR
deriving DecidableEq

/-- The display value of each style (`Style.value`). -/
def Style.val : Style → String
  | .INFORMATION => ""
  | .SUCCESS => "\x1b[32m"
  | .WARNING => "\x1b[33m"
  | .ERROR => "\x1b[31m"

/-- Model of `Prompt.bold` (lines 46-47): wrap with `colorama.Style.BRIGHT` /
`colorama.Style.NORMAL`. -/
def Prompt.bold (s : String) : String :=
  "\x1b[1m" ++ s ++ "\x1b[22m"

/-- Left-pad a number to two digits, the rendering of `%d`, `%m`, `%H`,
`%M`, `%S` in `strftime`. -/
def pad2 (n : Nat) : String :=
  if n < 10 then "0" ++ toString n else toString n

/-- Proleptic-Gregorian civil date from a count of days since 1970-01-01
(the standard era-based algorithm), giving (year, month, day).  This models
the date part of Python `datetime.fromtimestamp` for non-negative epochs. -/
def civilFromDays (days : Nat) : Nat × Nat × Nat :=
  let z := days + 719468
  let era := z / 146097
  let doe := z % 146097
  let yoe := (doe - doe / 1460 + doe / 36524 - doe / 146096) / 365
  let y := yoe + era * 400
  let doy := doe - (365 * yoe + yoe / 4 - yoe / 100)
  let mp := (5 * doy + 2) / 153
  let d := doy - (153 * mp + 2) / 5 + 1
  let m := if mp < 10 then mp + 3 else mp - 9
  (if m ≤ 2 then y + 1 else y, m, d)

/-- Model of `datetime.fromtimestamp(secs).strftime('[%d/%m/%Y-%H:%M:%S]')` applied
to a wall-clock epoch-second count (main.py lines 90 and 95). -/
def strftimeStamp (secs : Nat) : String :=
  let days := secs / 86400
  let rem := secs % 86400
  let ymd := civilFromDays days
  "[" ++ pad2 ymd.2.2 ++ "/" ++ pad2 ymd.2.1 ++ "/" ++ toString ymd.1 ++ "-" ++
    pad2 (rem / 3600) ++ ":" ++ pad2 (rem % 3600 / 60) ++ ":" ++
    pad2 (rem % 60) ++ "]"

/-- Python `datetime.fromtimestamp` converts an epoch to local wall-clock time;
the local timezone is modelled as an offset `tz` in seconds added to the
UTC epoch (non-negative results only, which covers every payload the
program renders). -/
def localSecs (tz : Int) (secs : Nat) : Nat :=
  ((secs : Int) + tz).toNat

/-- The account-status string of `Prompt.format_user` (lines 86-87). -/
def acc_status (user_info : Json) : String :=
  if jGetBool user_info "disabled" false then "disabled" else "enabled"

/-- The `created_at_formated` value of `Prompt.format_user` (lines 83,
89-92): `createdAt` is epoch milliseconds; zero renders as `"N/A"`. -/
def created_at_formated (tz : Int) (user_info : Json) : String :=
  let created_at := jGetNat user_info "createdAt" 0
  if created_at ≠ 0 then strftimeStamp (localSecs tz (created_at / 1000))
  else "N/A"

/-- The `seen_at_formated` value of `Prompt.format_user` (lines 84, 94-97):
`if seen_at:` is Python numeric truthiness, i.e. nonzero. -/
def seen_at_formated (tz : Int) (user_info : Json) : String :=
  let seen_at := jGetNat user_info "seenAt" 0
  if seen_at ≠ 0 then strftimeStamp (localSecs tz (seen_at / 1000))
  else "N/A"

/-- The rating string of one perf line (line 105):
`perf_info.get('rating','0')`, interpolated into the output. -/
def ratingStr (perf_info : Json) : String :=
  match perf_info.lookupKey "rating" with
  | some (.num n) => toString n
  | some (.str s) => s
  | _ => "0"

/-- Model of `Prompt.format_user` (lines 77-109); `os.linesep` is `"\n"`. -/
def format_user (tz : Int) (user_info : Json) : String :=
  "Username: " ++ Prompt.bold (jGetStr user_info "username" "") ++ "\n" ++
  "Account status: " ++ Prompt.bold (acc_status user_info) ++ "\n" ++
  "Account Created at : " ++ Prompt.bold (created_at_formated tz user_info) ++
    " || Last online " ++ Prompt.bold (seen_at_formated tz user_info) ++ "\n" ++
  "ELO RECAP \n\n" ++
  (jGetObj user_info "perfs").foldl
    (fun acc kv =>
      acc ++ Prompt.bold ("\t" ++ kv.1) ++ " : " ++ ratingStr kv.2 ++ "\n")
    ""

/-- Model of `Prompt.format_help` (lines 111-121). -/
def format_help (commands_info : List (String × String)) (pfx : String) :
    String :=
  commands_info.foldl
    (fun acc kv =>
      acc ++ "\x1b[1m" ++ kv.1 ++ "\x1b[22m" ++ "\n" ++
        pyReplace kv.2 "[COMMAND_PREFIX]" pfx ++ "\n")
    ""

/-- Python attribute / subscript faults surfaced by consumers of the
envelope: reading a never-assigned attribute raises `AttributeError`,
indexing a missing key raises `KeyError`. -/
inductive PyErr where
  | attributeError
  | keyError
deriving DecidableEq

/-- Reading `resp.data` (the `payload` attribute): `AttributeError` when the
constructor never assigned it. -/
def GenericResponse.dataAttr (r : GenericResponse) : Except PyErr Json :=
  match r.data with
  | none => .error .attributeError
  | some d => .ok d

/-- Model of `Prompt.__init__` (lines 32-35) as invoked at startup on
`self.__userinfo.data` (main.py line 141): builds the default prompt
`f'{user_info['username']}@lichess.org > '`.  Faults with `AttributeError`
when the envelope has no payload attribute and with `KeyError` when the
payload lacks `username`. -/
def promptInit (r : GenericResponse) : Except PyErr String := do
  let d ← r.dataAttr
  match d.lookupKey "username" with
  | none => throw .keyError
  | some v => pure (jsonDisplay v ++ "@lichess.org > ")

/-- Model of the `whoami` payload access (main.py line 219):
`self.__userinfo.data['username']`. -/
def whoamiOf (r : GenericResponse) : Except PyErr String := do
  let d ← r.dataAttr
  match d.lookupKey "username" with
  | none => throw .keyError
  | some v => pure (jsonDisplay v)

/-! ### The command dispatcher / REPL (`LichessCli`, main.py lines 123-245)

The loop is modelled as a step function over an explicit list of input
events (typed lines and interrupt signals), producing a trace of observable
events: styled output lines, API calls, the session release, and process
termination.  The network is an oracle mapping each API call to the
envelope the client returns for it. -/

/-- One event at a blocking `input()` read: a typed line, or a
`KeyboardInterrupt` delivered during the read. -/
inductive InputEvent where
  | line (s : String)
  | interrupt
deriving DecidableEq

/-- Observable events of a run: a styled printed message, an API call
issued through the client, `close_session`, successful process exit
(`sys.exit()` from `quit`, exit status 0), and the fatal top-level
crash path of `main.py` lines 247-262 (which also closes the session
best-effort before the process ends). -/
inductive Event where
  | out (msg : String) (style : Style)
  | apiCall (c : ApiCall)
  | closeSession
  | exitProcess
  | fatalExit
deriving DecidableEq

/-- The network oracle: the envelope each API call comes back with. -/
def Oracle : Type := ApiCall → GenericResponse

/-- The CLI configuration and startup state: the command prefix, the
`SUPPORTED_COMMANDS` mapping (name, usage description) in config order, the
local timezone offset used by timestamp rendering, and the envelope of the
startup `get_my_profile` identity fetch (`self.__userinfo`). -/
structure Config where
  pfx : String
  commands : List (String × String)
  tz : Int
  startupResp : GenericResponse

/-- Model of `self.__prefixed_commands` (main.py line 136). -/
def prefixedCommands (cfg : Config) : List String :=
  cfg.commands.map (fun kv => cfg.pfx ++ kv.1)

/-- Events of `LichessCli.quit` (lines 194-202): release the session,
print the farewell (`Prompt.show_bye`, an INFORMATION-styled message), and
terminate the process with success. -/
def quitEvents : List Event :=
  [.closeSession, .out "\nClosing HTTP session, Bye." Style.INFORMATION,
   .exitProcess]

/-- The events of the fatal crash path: an unhandled exception escapes the
loop, the top-level handler closes the session best-effort and the process
ends (main.py lines 251-262). -/
def fatalEvents : List Event :=
  [.closeSession, .fatalExit]

/-- Model of `LichessCli.__args_check` (lines 146-158): the returned flag and the
warning it prints when the arity does not match. -/
def args_check (args : List String) (arg_count : Nat) : Bool × List Event :=
  if args.length = arg_count then (true, [])
  else if args.length < arg_count then
    (false, [.out ("At least " ++ toString arg_count ++ " arguments are expected!")
               Style.WARNING])
  else
    (false, [.out ("You provided too many arguments. " ++ toString arg_count ++
                " arguments are expected!") Style.WARNING])

/-- The result of dispatching one input line: either a completed handler
(its events, and whether the loop stops here), or — for the `message`
handler, whose body performs a second blocking `input()` — the events so
far plus a continuation on the line read. -/
inductive HandlerOut where
  | done (events : List Event) (stop : Bool)
  | await (events : List Event) (k : String → List Event × Bool)

/-- The events of a `HandlerOut` before any further read. -/
def HandlerOut.eventsOf : HandlerOut → List Event
  | .done ev _ => ev
  | .await ev _ => ev

/-- Model of `LichessCli.user` (lines 179-192).  When the arity check passes, the
handler fetches the user; on a non-error envelope it reads
`userinfo.data` — an `AttributeError` crash when the payload attribute is
absent — and prints the formatted profile; on an error envelope it prints
the not-found warning. -/
def userHandler (cfg : Config) (api : Oracle) (args : List String) :
    HandlerOut :=
  match args_check args 1 with
  | (false, evs) => .done evs false
  | (true, _) =>
    let u := args.headI
    let resp := api (.getUserInfo u)
    if resp.error = false then
      match resp.data with
      | some d =>
        .done [.apiCall (.getUserInfo u),
               .out (format_user cfg.tz d) Style.SUCCESS] false
      | none => .done (.apiCall (.getUserInfo u) :: fatalEvents) true
    else
      .done [.apiCall (.getUserInfo u),
             .out ("User " ++ u ++ " not found") Style.WARNING] false

/-- Model of `LichessCli.help` (lines 204-211). -/
def helpHandler (cfg : Config) : HandlerOut :=
  .done [.out (format_help cfg.commands cfg.pfx) Style.WARNING] false

/-- Model of `LichessCli.whoami` (lines 213-220): prints the cached startup
username; crashes when the startup envelope has no payload attribute or the
payload lacks the key. -/
def whoamiHandler (cfg : Config) : HandlerOut :=
  match whoamiOf cfg.startupResp with
  | .error _ => .done fatalEvents true
  | .ok s => .done [.out s Style.SUCCESS] false

/-- The body of `LichessCli.message` after the second `input()` returned
`m` (lines 229-236).  Printing the error branch interpolates
`response.error_message`: absent attribute crashes, assigned `None` prints
as `"None"`. -/
def messageBody (api : Oracle) (u m : String) : List Event × Bool :=
  let resp := api (.sendMessage u m)
  if resp.error then
    match resp.error_message with
    | none => (.apiCall (.sendMessage u m) :: fatalEvents, true)
    | some em =>
      ([.apiCall (.sendMessage u m),
        .out ("An error occured while sending the message : " ++
          (match em with | none => "None" | some s => s)) Style.ERROR], false)
  else
    ([.apiCall (.sendMessage u m), .out "Message sent !" Style.SUCCESS], false)

/-- Model of `LichessCli.message` (lines 222-236): after the arity check the handler
blocks on a second line read. -/
def messageHandler (api : Oracle) (args : List String) : HandlerOut :=
  match args_check args 1 with
  | (false, evs) => .done evs false
  | (true, _) => .await [] (fun m => messageBody api args.headI m)

/-- Model of the `getattr(self, method)(command_args)` call of
`__command_handler` (line 177): resolve the stripped method name to a
handler; an unresolvable name raises `AttributeError` (fatal). -/
def callMethod (cfg : Config) (api : Oracle) (m : String)
    (args : List String) : HandlerOut :=
  match m with
  | "user" => userHandler cfg api args
  | "quit" => .done quitEvents true
  | "help" => helpHandler cfg
  | "whoami" => whoamiHandler cfg
  | "message" => messageHandler api args
  | _ => .done fatalEvents true

/-- Model of `LichessCli.__command_handler` (lines 160-177): split the input on
single spaces, test the first token against the prefixed command list, and
either print the unknown-command pair of messages or strip the prefix
(Python `str.replace`, all occurrences) and invoke the handler. -/
def dispatch (cfg : Config) (api : Oracle) (user_input : String) :
    HandlerOut :=
  let parts := pySplitSpace user_input
  let user_command := parts.headI
  let command_args := parts.tail
  if user_command ∈ prefixedCommands cfg then
    callMethod cfg api (pyReplace user_command cfg.pfx "") command_args
  else
    .done [.out ("Unknown command! " ++ user_command) Style.ERROR,
           .out ("type " ++ cfg.pfx ++
             "help to have the list of supported commands") Style.INFORMATION]
      false

/-- Model of `LichessCli.main` (lines 238-245): the REPL over a list of input
events.  A `KeyboardInterrupt` at either blocking read is caught by the
loop's handler and converted into `quit`; end of input during the
`message` handler's read is the fatal `EOFError` path. -/
def run (cfg : Config) (api : Oracle) : List InputEvent → List Event
  | [] => []
  | .interrupt :: _ => quitEvents
  | .line s :: rest =>
    match dispatch cfg api s with
    | .done ev true => ev
    | .done ev false => ev ++ run cfg api rest
    | .await ev k =>
      ev ++
        match rest with
        | [] => fatalEvents
        | .interrupt :: _ => quitEvents
        | .line m :: rest2 =>
          let r := k m
          r.1 ++ (if r.2 then [] else run cfg api rest2)

/-- A successful identity-fetch envelope, used as a concrete fixture. -/
def resp200 : GenericResponse :=
  ⟨200, 1, false, some (Json.obj [("username", Json.str "me")]), none⟩

/-- A concrete CLI configuration fixture: prefix `/`, the five supported
commands, UTC timezone, and a successful startup fetch. -/
def cfg0 : Config :=
  ⟨"/", [("user", "usage"), ("quit", "usage"), ("help", "usage"),
         ("whoami", "usage"), ("message", "usage")], 0, resp200⟩

/-- A concrete network oracle fixture answering every call with
`resp200`. -/
def api0 : Oracle := fun _ => resp200

/-! ### Claims about the response envelope -/

/-- C1: the envelope built from an HTTP response has `error = false` iff
the status code lies in [200,299]; and for a 2xx response whose body is
syntactically valid JSON (the decoder succeeds; on the empty body every
JSON decoder fails), the payload equals the decoded body. -/
theorem c1_envelope_invariant (jl : String → Option Json) (r : HttpResponse)
    (v : Json) :
    ((GenericResponse.ofResponse jl r).error = false ↔
      (200 ≤ r.status_code ∧ r.status_code ≤ 299))
    ∧ (jl "" = none → 200 ≤ r.status_code → r.status_code ≤ 299 →
        jl r.text = some v →
        (GenericResponse.ofResponse jl r).data = some v) := by
  constructor
  · unfold GenericResponse.ofResponse
    by_cases h : 200 ≤ r.status_code ∧ r.status_code ≤ 299
    · simp only [if_pos h]
      by_cases hne : r.text ≠ ""
      · simp only [if_pos hne]
        cases jl r.text <;> simp [h]
      · simp [hne, h]
    · simp only [if_neg h]
      by_cases h400 : r.status_code = 400 <;> simp [h400, h]
  · intro hE h1 h2 hv
    have hne : r.text ≠ "" := by
      intro hcontra
      rw [hcontra, hE] at hv
      exact Option.noConfusion hv
    unfold GenericResponse.ofResponse
    simp [h1, h2, hne, hv]

/-- Witness for C1: status 200 with the valid JSON body `"7"` under a
decoder that accepts exactly that body. -/
theorem c1_envelope_invariant_witness :
    ((GenericResponse.ofResponse
        (fun s => if s = "7" then some (Json.num 7) else none)
        ⟨200, "7", "OK", 5⟩).error = false)
    ∧ ((GenericResponse.ofResponse
        (fun s => if s = "7" then some (Json.num 7) else none)
        ⟨200, "7", "OK", 5⟩).data = some (Json.num 7)) :=
  ⟨(c1_envelope_invariant (fun s => if s = "7" then some (Json.num 7) else none)
      ⟨200, "7", "OK", 5⟩ (Json.num 7)).1.mpr (by decide),
   (c1_envelope_invariant (fun s => if s = "7" then some (Json.num 7) else none)
      ⟨200, "7", "OK", 5⟩ (Json.num 7)).2 rfl (by decide) (by decide) rfl⟩

/-- C2: a 2xx response with a non-empty body the decoder rejects yields an
envelope with `error = false` and yet an assigned decode-error message —
the documented inconsistency, preserved by the implementation. -/
theorem c2_decode_error_inconsistency (jl : String → Option Json)
    (r : HttpResponse) (h1 : 200 ≤ r.status_code) (h2 : r.status_code ≤ 299)
    (hne : r.text ≠ "") (hbad : jl r.text = none) :
    (GenericResponse.ofResponse jl r).error = false
    ∧ (GenericResponse.ofResponse jl r).error_message =
        some (some ("Unable to decode JSON: \n" ++ r.text)) := by
  unfold GenericResponse.ofResponse
  simp [h1, h2, hne, hbad]

/-- Witness for C2: status 204 with the non-JSON body `"oops"`. -/
theorem c2_decode_error_inconsistency_witness :
    (GenericResponse.ofResponse (fun _ => none) ⟨204, "oops", "No Content", 3⟩).error
      = false
    ∧ (GenericResponse.ofResponse (fun _ => none)
        ⟨204, "oops", "No Content", 3⟩).error_message =
        some (some ("Unable to decode JSON: \n" ++ "oops")) :=
  c2_decode_error_inconsistency (fun _ => none) ⟨204, "oops", "No Content", 3⟩
    (by decide) (by decide) (by decide) rfl

/-- C10: a 2xx response with an empty body yields an envelope with
`error = false` whose payload and error-message attributes are both absent
(never assigned); the startup prompt construction and the `whoami` handler
both read the payload attribute and fault with `AttributeError`. -/
theorem c10_empty_body_attribute_error (jl : String → Option Json)
    (status elapsed : Nat) (reason : String)
    (h1 : 200 ≤ status) (h2 : status ≤ 299) :
    (GenericResponse.ofResponse jl ⟨status, "", reason, elapsed⟩).error = false
    ∧ (GenericResponse.ofResponse jl ⟨status, "", reason, elapsed⟩).data = none
    ∧ (GenericResponse.ofResponse jl ⟨status, "", reason, elapsed⟩).error_message
        = none
    ∧ promptInit (GenericResponse.ofResponse jl ⟨status, "", reason, elapsed⟩)
        = .error .attributeError
    ∧ whoamiOf (GenericResponse.ofResponse jl ⟨status, "", reason, elapsed⟩)
        = .error .attributeError := by
  have hmk : GenericResponse.ofResponse jl ⟨status, "", reason, elapsed⟩ =
      { status_code := status, time_elapsed := elapsed,
        error := false, data := none, error_message := none } := by
    unfold GenericResponse.ofResponse
    simp [h1, h2]
  rw [hmk]
  exact ⟨rfl, rfl, rfl, rfl, rfl⟩

/-! ### Claims about the API client's header handling -/

/-- Replacing the value at key `k` does not change lookups at any other
key. -/
theorem dictGet_map_ne (k v k' : String) (h : k' ≠ k) :
    ∀ d : List (String × String),
      dictGet k' (d.map (fun kv => if kv.1 = k then (k, v) else kv)) =
        dictGet k' d
  | [] => rfl
  | kv :: t => by
    by_cases hk : kv.1 = k
    · simp [dictGet, hk, Ne.symm h, dictGet_map_ne k v k' h t]
    · simp [dictGet, hk, dictGet_map_ne k v k' h t]

/-- Appending a binding at key `k` does not change lookups at any other
key. -/
theorem dictGet_append_ne (k v k' : String) (h : k' ≠ k) :
    ∀ d : List (String × String),
      dictGet k' (d ++ [(k, v)]) = dictGet k' d
  | [] => by simp [dictGet, Ne.symm h]
  | kv :: t => by simp [dictGet, dictGet_append_ne k v k' h t]

/-- Python `dict.update` at key `k` does not change lookups at any other key. -/
theorem dictGet_dictUpdate_ne (d : List (String × String)) (k v k' : String)
    (h : k' ≠ k) : dictGet k' (dictUpdate d k v) = dictGet k' d := by
  unfold dictUpdate
  split
  · exact dictGet_map_ne k v k' h d
  · exact dictGet_append_ne k v k' h d

/-- The header-merging fold of `__send_request` never changes the
`Authorization` entry, whatever the caller supplied. -/
theorem foldHeaders_auth (addl : List (String × String)) :
    ∀ h0 : List (String × String),
      dictGet "Authorization"
        (addl.foldl
          (fun h kv => if kv.1 ≠ "Authorization" then dictUpdate h kv.1 kv.2 else h)
          h0) = dictGet "Authorization" h0 := by
  induction addl with
  | nil => intro h0; rfl
  | cons kv t ih =>
    intro h0
    simp only [List.foldl_cons]
    rw [ih]
    by_cases hk : kv.1 ≠ "Authorization"
    · rw [if_pos hk, dictGet_dictUpdate_ne _ _ _ _ (fun he => hk he.symm)]
    · rw [if_neg hk]

/-- Method `__send_request` preserves the `Authorization` entry, both in the
request actually sent and in the stored header dictionary afterwards. -/
theorem send_request_auth (st : LichessApi) (url method : String)
    (data : Option ReqData) (addl : List (String × String)) (b : String)
    (hA : dictGet "Authorization" st.headers = some b) :
    dictGet "Authorization" (st.send_request url method data addl).1.headers = some b
    ∧ dictGet "Authorization" (st.send_request url method data addl).2.headers = some b := by
  simp only [LichessApi.send_request]
  rw [foldHeaders_auth]
  exact ⟨hA, hA⟩

/-- Every client operation preserves the `Authorization` entry. -/
theorem runOp_auth (st : LichessApi) (op : ApiOp) (b : String)
    (hA : dictGet "Authorization" st.headers = some b) :
    dictGet "Authorization" (runOp st op).1.headers = some b
    ∧ dictGet "Authorization" (runOp st op).2.headers = some b := by
  cases op with
  | call c =>
    cases c <;>
      simp only [runOp, LichessApi.get_user_info, LichessApi.get_users_by_id,
        LichessApi.get_my_profile, LichessApi.send_message] <;>
      exact send_request_auth _ _ _ _ _ _ hA
  | raw url method data addl =>
    exact send_request_auth _ _ _ _ _ _ hA

/-- Every request of a run from a state with a given `Authorization` entry
carries that entry. -/
theorem runOps_auth (b : String) :
    ∀ (ops : List ApiOp) (st : LichessApi),
      dictGet "Authorization" st.headers = some b →
      ∀ req ∈ runOps st ops, dictGet "Authorization" req.headers = some b := by
  intro ops
  induction ops with
  | nil =>
    intro st _ req hreq
    simp [runOps] at hreq
  | cons op t ih =>
    intro st hA req hreq
    simp only [runOps, List.mem_cons] at hreq
    rcases hreq with h | h
    · subst h
      exact (runOp_auth st op b hA).1
    · exact ih _ (runOp_auth st op b hA).2 req h

/-- C3: across any sequence of API calls, including direct requests whose
caller-supplied additional headers contain an `Authorization` key, the
`Authorization` header actually sent with every request equals
`Bearer <token>` for the construction-time token. -/
theorem c3_authorization_never_overridden (token baseurl : String)
    (ops : List ApiOp) :
    ∀ req ∈ runOps (LichessApi.init token baseurl) ops,
      dictGet "Authorization" req.headers = some ("Bearer " ++ token) :=
  runOps_auth ("Bearer " ++ token) ops (LichessApi.init token baseurl) rfl

/-- Witness for C3: a direct request supplying an `Authorization` override
still goes out with the construction-time bearer token. -/
theorem c3_authorization_never_overridden_witness :
    dictGet "Authorization"
      (SentRequest.mk "u" "get"
        [("Authorization", "Bearer t"), ("Accept", "application/json")]
        none).headers = some ("Bearer " ++ "t") :=
  c3_authorization_never_overridden "t" "B"
    [.raw "u" "get" none [("Authorization", "EVIL")]]
    (SentRequest.mk "u" "get"
      [("Authorization", "Bearer t"), ("Accept", "application/json")] none)
    (by decide)

/-- C4: the claim that per-call additional headers affect only that request
fails on the code.  `__send_request` binds `headers = self.__headers`, an
alias of the stored dictionary, so `get_users_by_id`'s `Content-Type`
override mutates the instance's default headers: the immediately following
`get_my_profile`, which supplies no overrides, still sends
`Content-Type: text-plain` instead of exactly the two fixed headers. -/
theorem c4_header_override_persists :
    runOps (LichessApi.init "t" "B")
      [.call (.getUsersById ["a"]), .call .getMyProfile] =
      [⟨"Bapi/users", "post",
        [("Authorization", "Bearer t"), ("Accept", "application/json"),
         ("Content-Type", "text-plain")], some (.str "a")⟩,
       ⟨"Bapi/account", "get",
        [("Authorization", "Bearer t"), ("Accept", "application/json"),
         ("Content-Type", "text-plain")], none⟩] := by
  decide

/-- C5 counterexample: `send_message` does not send to
`BASE_URL ++ "inbox/" ++ username` — the endpoint string in the source has
a leading slash. -/
theorem c5_send_message_url_counterexample :
    (LichessApi.send_message (LichessApi.init "t" "B") "u" "m").1.url ≠
      "B" ++ "inbox/u" := by
  decide

/-- C5 amended: for every client state, username and message,
`send_message` POSTs to `BASE_URL ++ "/inbox/" ++ username` — the endpoint
path carries a leading slash, so a `/` stands between `BASE_URL` and
`inbox/{username}` — with form-encoded body `{text: message}`. -/
theorem c5_send_message_url_amended (st : LichessApi)
    (username message : String) :
    (st.send_message username message).1.url =
      st.baseurl ++ ("/inbox/" ++ username)
    ∧ (st.send_message username message).1.method = "post"
    ∧ (st.send_message username message).1.data =
        some (.form [("text", message)]) :=
  ⟨rfl, rfl, rfl⟩

/-- Witness for C10 at status 200. -/
theorem c10_empty_body_attribute_error_witness :
    (GenericResponse.ofResponse (fun _ => none) ⟨200, "", "OK", 1⟩).error = false
    ∧ (GenericResponse.ofResponse (fun _ => none) ⟨200, "", "OK", 1⟩).data = none
    ∧ (GenericResponse.ofResponse (fun _ => none) ⟨200, "", "OK", 1⟩).error_message
        = none
    ∧ promptInit (GenericResponse.ofResponse (fun _ => none) ⟨200, "", "OK", 1⟩)
        = .error .attributeError
    ∧ whoamiOf (GenericResponse.ofResponse (fun _ => none) ⟨200, "", "OK", 1⟩)
        = .error .attributeError :=
  c10_empty_body_attribute_error (fun _ => none) 200 1 "OK"
    (by decide) (by decide)

/-! ### Claims about the command dispatcher -/

/-- C6: on an input line whose first space-delimited token is not a
prefixed command of the command table, the dispatcher emits exactly the
unknown-command message and the help hint — so no handler runs and no API
call is issued — does not stop the loop, and the REPL goes on to the next
iteration. -/
theorem c6_unknown_command (cfg : Config) (api : Oracle)
    (rest : List InputEvent) (input : String)
    (h : (pySplitSpace input).headI ∉ prefixedCommands cfg) :
    dispatch cfg api input =
      .done [.out ("Unknown command! " ++ (pySplitSpace input).headI)
               Style.ERROR,
             .out ("type " ++ cfg.pfx ++
               "help to have the list of supported commands")
               Style.INFORMATION] false
    ∧ run cfg api (.line input :: rest) =
        [.out ("Unknown command! " ++ (pySplitSpace input).headI) Style.ERROR,
         .out ("type " ++ cfg.pfx ++
           "help to have the list of supported commands") Style.INFORMATION]
          ++ run cfg api rest := by
  have hd : dispatch cfg api input =
      .done [.out ("Unknown command! " ++ (pySplitSpace input).headI)
               Style.ERROR,
             .out ("type " ++ cfg.pfx ++
               "help to have the list of supported commands")
               Style.INFORMATION] false := by
    unfold dispatch
    simp only [if_neg h]
  refine ⟨hd, ?_⟩
  simp only [run]
  rw [hd]

/-- Witness for C6 on the unrecognized input `frotz` under the concrete
configuration `cfg0`. -/
theorem c6_unknown_command_witness :
    dispatch cfg0 api0 "frotz" =
      .done [.out ("Unknown command! " ++ (pySplitSpace "frotz").headI)
               Style.ERROR,
             .out ("type " ++ cfg0.pfx ++
               "help to have the list of supported commands")
               Style.INFORMATION] false
    ∧ run cfg0 api0 (.line "frotz" :: []) =
        [.out ("Unknown command! " ++ (pySplitSpace "frotz").headI)
           Style.ERROR,
         .out ("type " ++ cfg0.pfx ++
           "help to have the list of supported commands") Style.INFORMATION]
          ++ run cfg0 api0 [] :=
  c6_unknown_command cfg0 api0 [] "frotz" (by decide)

/-- C7: on the input consisting of the prefixed token `<prefix>user` alone
(zero arguments, arity 1 expected), the dispatcher emits exactly the
at-least-one-argument warning — `At least 1 arguments are expected!` — and
the handler aborts without issuing any API call; with an exact-arity
argument list the handler body proceeds and calls the client.  The
hypotheses fix the configured prefix's interaction with Python's
space-splitting and all-occurrence `str.replace` (satisfied by ordinary
prefixes such as `/` or `!`). -/
theorem c7_user_arity_check (cfg : Config) (api : Oracle)
    (hu : "user" ∈ cfg.commands.map Prod.fst)
    (h0 : pySplitSpace (cfg.pfx ++ "user") = [cfg.pfx ++ "user"])
    (hrep : pyReplace (cfg.pfx ++ "user") cfg.pfx "" = "user")
    (h1 : pySplitSpace (cfg.pfx ++ "user bob") = [cfg.pfx ++ "user", "bob"]) :
    dispatch cfg api (cfg.pfx ++ "user") =
      .done [.out "At least 1 arguments are expected!" Style.WARNING] false
    ∧ Event.apiCall (.getUserInfo "bob") ∈
        (dispatch cfg api (cfg.pfx ++ "user bob")).eventsOf := by
  have hmem : cfg.pfx ++ "user" ∈ prefixedCommands cfg := by
    rcases List.mem_map.mp hu with ⟨kv, hkv, he⟩
    exact List.mem_map.mpr ⟨kv, hkv, by rw [he]⟩
  constructor
  · unfold dispatch
    rw [h0]
    simp only [List.headI, List.tail_cons, if_pos hmem, hrep]
    rfl
  · unfold dispatch
    rw [h1]
    simp only [List.headI, List.tail_cons, if_pos hmem, hrep]
    have hac : args_check ["bob"] 1 = (true, []) := rfl
    show Event.apiCall (.getUserInfo "bob") ∈
      (userHandler cfg api ["bob"]).eventsOf
    unfold userHandler
    rw [hac]
    by_cases he : (api (.getUserInfo "bob")).error = false
    · cases hd : (api (.getUserInfo "bob")).data with
      | none => simp [he, hd, HandlerOut.eventsOf, fatalEvents]
      | some d => simp [he, hd, HandlerOut.eventsOf]
    · simp [he, HandlerOut.eventsOf]

/-- Witness for C7 with prefix `/` under the concrete configuration
`cfg0`. -/
theorem c7_user_arity_check_witness :
    dispatch cfg0 api0 (cfg0.pfx ++ "user") =
      .done [.out "At least 1 arguments are expected!" Style.WARNING] false
    ∧ Event.apiCall (.getUserInfo "bob") ∈
        (dispatch cfg0 api0 (cfg0.pfx ++ "user bob")).eventsOf :=
  c7_user_arity_check cfg0 api0 (by decide) (by decide) (by decide)
    (by decide)

/-! ### Claims about the presentation layer -/

/-- Checking a string against a character mask: at `#` positions a decimal
digit is required, elsewhere the exact mask character; lengths must
agree. -/
def matchesMask (mask s : String) : Bool :=
  (mask.data.length == s.data.length) &&
  (mask.data.zip s.data).all
    (fun pc => if pc.1 == '#' then pc.2.isDigit else pc.1 == pc.2)

/-- The shape of the code's timestamp rendering
`[%d/%m/%Y-%H:%M:%S]`: a bracketed `DD/MM/YYYY-HH:MM:SS` pattern. -/
def tsMask : String := "[##/##/####-##:##:##]"

/-- The profile of the first C8 test vector. -/
def bobProfile : Json :=
  Json.obj [("username", .str "bob"), ("createdAt", .num 0),
            ("seenAt", .num 0), ("disabled", .bool false),
            ("perfs", .obj [])]

/-- The profile of the second C8 test vector. -/
def profile1700 : Json :=
  Json.obj [("createdAt", .num 1700000000000)]

/-- For every real timezone offset (a multiple of 15 minutes within ±14 h,
enumerated as `900 * (n - 56)` for `n < 113`), the rendered `createdAt`
timestamp of `profile1700` is a bracketed `DD/MM/YYYY-HH:MM:SS` string. -/
theorem createdAt1700_mask_ball :
    ∀ n : Nat, n < 113 →
      created_at_formated (900 * ((n : Int) - 56)) profile1700 ≠ "N/A"
      ∧ matchesMask tsMask
          (created_at_formated (900 * ((n : Int) - 56)) profile1700) = true := by
  decide

/-- C8: `format_user` on
`{username:"bob", createdAt:0, seenAt:0, disabled:false, perfs:{}}` yields
account status `enabled` and renders both timestamps as the literal `N/A`
(whatever the local timezone); and on a profile with
`createdAt = 1700000000000` it yields a non-`N/A` timestamp string matching
`DD/MM/YYYY-HH:MM:SS` (in the code's literal rendering, wrapped in square
brackets), for every real local-timezone offset — a multiple of 15 minutes
within ±14 hours. -/
theorem c8_format_user_rendering (tz : Int) :
    (acc_status bobProfile = "enabled"
     ∧ created_at_formated tz bobProfile = "N/A"
     ∧ seen_at_formated tz bobProfile = "N/A"
     ∧ format_user tz bobProfile =
         "Username: \x1b[1mbob\x1b[22m\nAccount status: \x1b[1menabled\x1b[22m\nAccount Created at : \x1b[1mN/A\x1b[22m || Last online \x1b[1mN/A\x1b[22m\nELO RECAP \n\n")
    ∧ (tz % 900 = 0 → -50400 ≤ tz → tz ≤ 50400 →
        created_at_formated tz profile1700 ≠ "N/A"
        ∧ matchesMask tsMask (created_at_formated tz profile1700) = true) := by
  constructor
  · exact ⟨rfl, rfl, rfl, rfl⟩
  · intro hm h1 h2
    have hk : tz = 900 * (tz / 900) := by omega
    have hn : ((tz / 900 + 56).toNat : Int) - 56 = tz / 900 := by omega
    have hlt : (tz / 900 + 56).toNat < 113 := by omega
    have hb := createdAt1700_mask_ball (tz / 900 + 56).toNat hlt
    rw [hn] at hb
    rw [hk]
    exact hb

/-- Witness for C8 at timezone offset 0 (UTC). -/
theorem c8_format_user_rendering_witness :
    created_at_formated 0 profile1700 ≠ "N/A"
    ∧ matchesMask tsMask (created_at_formated 0 profile1700) = true :=
  (c8_format_user_rendering 0).2 (by decide) (by decide) (by decide)

/-! ### The temporal claim about quit -/

/-- The classification every dispatched step satisfies: either it is the
quit sequence (and the loop stops), or its events contain no process exit
and — when the loop continues — no session release either. -/
def okEvents (ev : List Event) (stop : Bool) : Prop :=
  (ev = quitEvents ∧ stop = true)
  ∨ (Event.exitProcess ∉ ev ∧ (stop = false → Event.closeSession ∉ ev))

/-- Classification `okEvents` lifted to a `HandlerOut`, covering the continuation of an
awaiting `message` handler. -/
def HandlerOutOk : HandlerOut → Prop
  | .done ev stop => okEvents ev stop
  | .await ev k => ev = [] ∧ ∀ m, okEvents (k m).1 (k m).2

/-- The arity warnings never release the session or exit the process. -/
theorem args_check_events (args : List String) (n : Nat) :
    Event.closeSession ∉ (args_check args n).2
    ∧ Event.exitProcess ∉ (args_check args n).2 := by
  unfold args_check
  split_ifs <;> simp

/-- The `user` handler satisfies the step classification. -/
theorem userHandler_ok (cfg : Config) (api : Oracle) (args : List String) :
    HandlerOutOk (userHandler cfg api args) := by
  unfold userHandler
  split
  case h_1 evs heq =>
    have hev := args_check_events args 1
    rw [heq] at hev
    exact Or.inr ⟨hev.2, fun _ => hev.1⟩
  case h_2 =>
    dsimp only
    split
    · split
      · exact Or.inr ⟨by simp, fun _ => by simp⟩
      · exact Or.inr ⟨by simp [fatalEvents], by simp⟩
    · exact Or.inr ⟨by simp, fun _ => by simp⟩

/-- The `help` handler satisfies the step classification. -/
theorem helpHandler_ok (cfg : Config) : HandlerOutOk (helpHandler cfg) :=
  Or.inr ⟨by simp, fun _ => by simp⟩

/-- The `whoami` handler satisfies the step classification. -/
theorem whoamiHandler_ok (cfg : Config) : HandlerOutOk (whoamiHandler cfg) := by
  unfold whoamiHandler
  split
  · exact Or.inr ⟨by simp [fatalEvents], by simp⟩
  · exact Or.inr ⟨by simp, fun _ => by simp⟩

/-- The body of the `message` handler satisfies the step classification. -/
theorem messageBody_ok (api : Oracle) (u m : String) :
    okEvents (messageBody api u m).1 (messageBody api u m).2 := by
  unfold messageBody
  dsimp only
  split
  · split
    · exact Or.inr ⟨by simp [fatalEvents], by simp⟩
    · exact Or.inr ⟨by simp, fun _ => by simp⟩
  · exact Or.inr ⟨by simp, fun _ => by simp⟩

/-- The `message` handler satisfies the step classification. -/
theorem messageHandler_ok (api : Oracle) (args : List String) :
    HandlerOutOk (messageHandler api args) := by
  unfold messageHandler
  split
  case h_1 evs heq =>
    have hev := args_check_events args 1
    rw [heq] at hev
    exact Or.inr ⟨hev.2, fun _ => hev.1⟩
  case h_2 =>
    exact ⟨rfl, fun m => messageBody_ok api args.headI m⟩

/-- Every resolved method satisfies the step classification; resolution
failure is the fatal crash path, which never emits a process exit. -/
theorem callMethod_ok (cfg : Config) (api : Oracle) (m : String)
    (args : List String) : HandlerOutOk (callMethod cfg api m args) := by
  unfold callMethod
  split
  · exact userHandler_ok cfg api args
  · exact Or.inl ⟨rfl, rfl⟩
  · exact helpHandler_ok cfg
  · exact whoamiHandler_ok cfg
  · exact messageHandler_ok api args
  · exact Or.inr ⟨by simp [fatalEvents], by simp⟩

/-- Every dispatched input line satisfies the step classification. -/
theorem dispatch_ok (cfg : Config) (api : Oracle) (s : String) :
    HandlerOutOk (dispatch cfg api s) := by
  unfold dispatch
  dsimp only
  split
  · exact callMethod_ok cfg api _ _
  · exact Or.inr ⟨by simp, fun _ => by simp⟩

/-- If a run's trace reaches a process exit, the trace is a prefix without
any session release followed by exactly the quit sequence. -/
theorem run_exit_aux (cfg : Config) (api : Oracle) :
    ∀ (n : Nat) (inputs : List InputEvent), inputs.length ≤ n →
      Event.exitProcess ∈ run cfg api inputs →
      ∃ pre, run cfg api inputs = pre ++ quitEvents
        ∧ Event.closeSession ∉ pre := by
  intro n
  induction n with
  | zero =>
    intro inputs hlen hmem
    have h0 : inputs = [] := List.length_eq_zero.mp (Nat.le_zero.mp hlen)
    subst h0
    simp [run] at hmem
  | succ n ih =>
    intro inputs hlen hmem
    match inputs with
    | [] => simp [run] at hmem
    | .interrupt :: rest =>
      exact ⟨[], by simp [run], by simp⟩
    | .line s :: rest =>
      have hok := dispatch_ok cfg api s
      rcases hd : dispatch cfg api s with ⟨ev, stop⟩ | ⟨ev, k⟩
      · rw [hd] at hok
        simp only [HandlerOutOk] at hok
        cases stop with
        | false =>
          have hrun : run cfg api (.line s :: rest) = ev ++ run cfg api rest := by
            simp [run, hd]
          rcases hok with ⟨_, hc⟩ | ⟨hex, himp⟩
          · exact absurd hc (by simp)
          · have hcl : Event.closeSession ∉ ev := himp rfl
            rw [hrun] at hmem
            have hmem2 : Event.exitProcess ∈ run cfg api rest := by
              rcases List.mem_append.mp hmem with h | h
              · exact absurd h hex
              · exact h
            obtain ⟨pre, hp, hclp⟩ := ih rest
              (by simp only [List.length_cons] at hlen; omega) hmem2
            refine ⟨ev ++ pre, ?_, ?_⟩
            · rw [hrun, hp, List.append_assoc]
            · intro hc
              rcases List.mem_append.mp hc with h | h
              · exact hcl h
              · exact hclp h
        | true =>
          have hrun : run cfg api (.line s :: rest) = ev := by
            simp [run, hd]
          rw [hrun] at hmem
          rcases hok with ⟨hq, _⟩ | ⟨hex, _⟩
          · exact ⟨[], by rw [hrun, hq]; simp, by simp⟩
          · exact absurd hmem hex
      · rw [hd] at hok
        obtain ⟨hev, hk⟩ := hok
        subst hev
        match rest with
        | [] =>
          have hrun : run cfg api [.line s] = fatalEvents := by
            simp [run, hd, fatalEvents]
          rw [hrun] at hmem
          simp [fatalEvents] at hmem
        | .interrupt :: rest2 =>
          have hrun : run cfg api (.line s :: .interrupt :: rest2) =
              quitEvents := by
            simp [run, hd]
          exact ⟨[], by rw [hrun]; simp, by simp⟩
        | .line m :: rest2 =>
          have hkm := hk m
          cases hstop : (k m).2 with
          | false =>
            have hrun : run cfg api (.line s :: .line m :: rest2) =
                (k m).1 ++ run cfg api rest2 := by
              simp [run, hd, hstop]
            rcases hkm with ⟨_, hc⟩ | ⟨hex, himp⟩
            · rw [hstop] at hc
              exact absurd hc (by simp)
            · have hcl : Event.closeSession ∉ (k m).1 := himp hstop
              rw [hrun] at hmem
              have hmem2 : Event.exitProcess ∈ run cfg api rest2 := by
                rcases List.mem_append.mp hmem with h | h
                · exact absurd h hex
                · exact h
              obtain ⟨pre, hp, hclp⟩ := ih rest2
                (by simp only [List.length_cons] at hlen; omega) hmem2
              refine ⟨(k m).1 ++ pre, ?_, ?_⟩
              · rw [hrun, hp, List.append_assoc]
              · intro hc
                rcases List.mem_append.mp hc with h | h
                · exact hcl h
                · exact hclp h
          | true =>
            have hrun : run cfg api (.line s :: .line m :: rest2) =
                (k m).1 := by
              simp [run, hd, hstop]
            rw [hrun] at hmem
            rcases hkm with ⟨hq, _⟩ | ⟨hex, _⟩
            · exact ⟨[], by rw [hrun, hq]; simp, by simp⟩
            · exact absurd hmem hex

/-- C9: an interrupt at the main blocking read produces exactly the quit
sequence — session release, farewell message, successful process exit —
and every run whose trace terminates the process does so with the quit
sequence as its final events: the session is released exactly once, the
farewell precedes the exit, and nothing (in particular no further loop
iteration) follows it. -/
theorem c9_quit_releases_once (cfg : Config) (api : Oracle) :
    (∀ rest, run cfg api (.interrupt :: rest) = quitEvents)
    ∧ ∀ inputs, Event.exitProcess ∈ run cfg api inputs →
        ∃ pre, run cfg api inputs = pre ++ quitEvents
          ∧ Event.closeSession ∉ pre
          ∧ (run cfg api inputs).count Event.closeSession = 1 := by
  refine ⟨fun rest => rfl, fun inputs hmem => ?_⟩
  obtain ⟨pre, hp, hcl⟩ :=
    run_exit_aux cfg api inputs.length inputs le_rfl hmem
  refine ⟨pre, hp, hcl, ?_⟩
  rw [hp, List.count_append, List.count_eq_zero.mpr hcl]
  decide

/-- Witness for C9: the input line `/quit` under the concrete
configuration `cfg0`. -/
theorem c9_quit_releases_once_witness :
    ∃ pre, run cfg0 api0 [.line "/quit"] = pre ++ quitEvents
      ∧ Event.closeSession ∉ pre
      ∧ (run cfg0 api0 [.line "/quit"]).count Event.closeSession = 1 :=
  (c9_quit_releases_once cfg0 api0).2 [.line "/quit"] (by decide)
